import Mathlib

/-!
Shallow embedding of the household-appliance energy-consumption calculator
(`appliance_calculator` package: `appliances.py`, `calculator.py`,
`database.py`).  Python numbers (`int`/`float` arguments that the code
treats as reals) are embedded as `ℚ`; Python exceptions are embedded as an
explicit error type.  Every definition mirrors the corresponding Python
function statement by statement.
-/

namespace ApplianceCalc

/-- Python exceptions raised by the embedded fragment.  The code raises
`ValueError` for bad argument values and `TypeError` for a collection
element of the wrong class. -/
inductive PyError where
  | valueError (msg : String)
  | typeError (msg : String)
deriving Repr, DecidableEq

/-- The spec's error taxonomy (§7) groups every bad-constructor/method-argument
failure under the single name `ValidationError`.  In the embedded fragment the
code signals such failures with Python `ValueError` or `TypeError`, so both
constructors fall in that class (there is no `StorageError`-style failure in
the embedded methods: database read failure is modelled by the store state,
see `DatabaseManager`). -/
def PyError.isValidationError : PyError → Bool
  | .valueError _ => true
  | .typeError _ => true

/-- The variant-specific descriptive attribute of each `Appliance` subclass
(`Iron.steam_booster`, `TV.screen_size_inches`,
`WashingMachine.capacity_kg`). -/
inductive ApplianceKind where
  | iron (steam_booster : Bool)
  | tv (screen_size_inches : ℚ)
  | washingMachine (capacity_kg : ℚ)
deriving Repr, DecidableEq

/-- State of an `Appliance` object: `_name`, `_power_consumption_watts`,
`_is_on`, plus the subclass attribute. -/
structure Appliance where
  name : String
  power_consumption_watts : ℚ
  is_on : Bool
  kind : ApplianceKind
deriving Repr, DecidableEq

/-- `Appliance.__init__`: validates the name (non-empty string) and the power
(positive number), then stores them with `_is_on = False`.  The
`isinstance` checks are discharged by the embedding types (`String`, `ℚ`). -/
def Appliance.init (name : String) (power_consumption_watts : ℚ)
    (kind : ApplianceKind) : Except PyError Appliance :=
  if name = "" then
    .error (.valueError "The appliance name must be a non-empty string.")
  else if power_consumption_watts ≤ 0 then
    .error (.valueError "The power consumption must be a positive number.")
  else
    .ok { name := name, power_consumption_watts := power_consumption_watts,
          is_on := false, kind := kind }

/-- `Iron.__init__`: runs the base initializer, then validates
`steam_booster` (an `isinstance(_, bool)` check, discharged by `Bool`). -/
def Iron.init (name : String) (power_consumption_watts : ℚ)
    (steam_booster : Bool) : Except PyError Appliance :=
  Appliance.init name power_consumption_watts (.iron steam_booster)

/-- `TV.__init__`: runs the base initializer, then validates the screen
size (positive number). -/
def TV.init (name : String) (power_consumption_watts : ℚ)
    (screen_size_inches : ℚ) : Except PyError Appliance := do
  let base ← Appliance.init name power_consumption_watts (.tv screen_size_inches)
  if screen_size_inches ≤ 0 then
    .error (.valueError "The screen size must be a positive number.")
  else
    .ok base

/-- `WashingMachine.__init__`: runs the base initializer, then validates the
capacity (positive number). -/
def WashingMachine.init (name : String) (power_consumption_watts : ℚ)
    (capacity_kg : ℚ) : Except PyError Appliance := do
  let base ← Appliance.init name power_consumption_watts (.washingMachine capacity_kg)
  if capacity_kg ≤ 0 then
    .error (.valueError "The load capacity must be a positive number.")
  else
    .ok base

/-- `Appliance.turn_on`: sets `_is_on = True` (the printed status message
carries no semantics). -/
def Appliance.turn_on (self : Appliance) : Appliance :=
  { self with is_on := true }

/-- `Appliance.turn_off`: sets `_is_on = False`. -/
def Appliance.turn_off (self : Appliance) : Appliance :=
  { self with is_on := false }

/-- `Iron.calculate_energy_consumption`: returns `0.0` when the iron is off;
otherwise validates `hours` (non-negative) and returns
`(power_consumption_watts / 1000) * hours`. -/
def Iron.calculate_energy_consumption (self : Appliance) (hours : ℚ) :
    Except PyError ℚ :=
  if self.is_on = false then
    .ok 0
  else if hours < 0 then
    .error (.valueError "The time must be a non-negative number.")
  else
    .ok (self.power_consumption_watts / 1000 * hours)

/-- `TV.calculate_energy_consumption`: same statements as the iron's. -/
def TV.calculate_energy_consumption (self : Appliance) (hours : ℚ) :
    Except PyError ℚ :=
  if self.is_on = false then
    .ok 0
  else if hours < 0 then
    .error (.valueError "The time must be a non-negative number.")
  else
    .ok (self.power_consumption_watts / 1000 * hours)

/-- `WashingMachine.calculate_energy_consumption`: same statements as the
iron's. -/
def WashingMachine.calculate_energy_consumption (self : Appliance) (hours : ℚ) :
    Except PyError ℚ :=
  if self.is_on = false then
    .ok 0
  else if hours < 0 then
    .error (.valueError "The time must be a non-negative number.")
  else
    .ok (self.power_consumption_watts / 1000 * hours)

/-- Dynamic dispatch of the abstract method
`Appliance.calculate_energy_consumption` to the concrete subclass
implementation. -/
def Appliance.calculate_energy_consumption (self : Appliance) (hours : ℚ) :
    Except PyError ℚ :=
  match self.kind with
  | .iron _ => Iron.calculate_energy_consumption self hours
  | .tv _ => TV.calculate_energy_consumption self hours
  | .washingMachine _ => WashingMachine.calculate_energy_consumption self hours

/-! ## Rounding

Python's built-in `round(x, n)` rounds to `n` decimal digits with ties going
to the nearest even integer multiple.  It is embedded over `ℚ`. -/

/-- Round a rational to the nearest integer, ties to even. -/
def roundHalfEven (x : ℚ) : ℤ :=
  if x - ⌊x⌋ < 1 / 2 then ⌊x⌋
  else if 1 / 2 < x - ⌊x⌋ then ⌊x⌋ + 1
  else if ⌊x⌋ % 2 = 0 then ⌊x⌋ else ⌊x⌋ + 1

/-- Python `round(x, ndigits)` over `ℚ`. -/
def pyRound (x : ℚ) (ndigits : ℕ) : ℚ :=
  (roundHalfEven (x * 10 ^ ndigits) : ℚ) / 10 ^ ndigits

/-! ## EnergyCalculator (`calculator.py`) -/

/-- One element of the `detailed_results` list built by
`calculate_total_consumption_and_cost`. -/
structure DetailEntry where
  name : String
  consumption_kwh : ℚ
  cost : ℚ
deriving Repr, DecidableEq

/-- The dictionary returned by `calculate_total_consumption_and_cost`. -/
structure CalcResult where
  total_consumption_kwh : ℚ
  total_cost : ℚ
  details : List DetailEntry
deriving Repr, DecidableEq

/-- An element of the Python list handed to `EnergyCalculator.__init__`:
either an `Appliance` instance or any other Python value (which only its
failure to be an `Appliance` matters for). -/
inductive PyValue where
  | appliance (a : Appliance)
  | other (description : String)
deriving Repr, DecidableEq

/-- Embeds Python `isinstance(v, Appliance)`. -/
def PyValue.isAppliance : PyValue → Bool
  | .appliance _ => true
  | .other _ => false

def PyValue.toAppliance : PyValue → Option Appliance
  | .appliance a => some a
  | .other _ => none

/-- State of an `EnergyCalculator` object: the `appliances` list and the
managed attribute `_tariff_kwh`. -/
structure EnergyCalculator where
  appliances : List Appliance
  tariff_kwh : ℚ
deriving Repr, DecidableEq

/-- `EnergyCalculator.__init__`: raises `TypeError` unless every element of
the collection is an `Appliance`, raises `ValueError` for a negative tariff,
then stores the list and the tariff. -/
def EnergyCalculator.init (appliances : List PyValue) (tariff_kwh : ℚ) :
    Except PyError EnergyCalculator :=
  if ¬ appliances.all PyValue.isAppliance then
    .error (.typeError "The list must contain objects inheriting from Appliance.")
  else if tariff_kwh < 0 then
    .error (.valueError "The tariff per kWh must be a non-negative number.")
  else
    .ok { appliances := appliances.filterMap PyValue.toAppliance,
          tariff_kwh := tariff_kwh }

/-- The `tariff_kwh` property setter: raises `ValueError` for a negative
value, otherwise assigns `_tariff_kwh`.  The state component of the result is
the calculator state after the call (the exception is raised before the
assignment, so on failure the incoming state is returned). -/
def EnergyCalculator.set_tariff_kwh (self : EnergyCalculator) (value : ℚ) :
    EnergyCalculator × Option PyError :=
  if value < 0 then
    (self, some (.valueError "The tariff per kWh must be a non-negative number."))
  else
    ({ self with tariff_kwh := value }, none)

/-- The `for appliance in self.appliances` loop of
`calculate_total_consumption_and_cost`, carrying the running
`total_consumption_kwh`, `total_cost` and `detailed_results` accumulators. -/
def calcLoop (tariff period_hours : ℚ) :
    List Appliance → ℚ → ℚ → List DetailEntry →
    Except PyError (ℚ × ℚ × List DetailEntry)
  | [], totalE, totalC, details => .ok (totalE, totalC, details)
  | a :: rest, totalE, totalC, details =>
    if a.is_on then
      match a.calculate_energy_consumption period_hours with
      | .error e => .error e
      | .ok consumption_kwh =>
        let cost := consumption_kwh * tariff
        calcLoop tariff period_hours rest (totalE + consumption_kwh)
          (totalC + cost)
          (details ++ [{ name := a.name,
                         consumption_kwh := pyRound consumption_kwh 3,
                         cost := pyRound cost 2 }])
    else
      calcLoop tariff period_hours rest totalE totalC
        (details ++ [{ name := a.name, consumption_kwh := 0, cost := 0 }])

/-- `EnergyCalculator.calculate_total_consumption_and_cost`: validates the
period (non-negative), runs the loop from zeroed accumulators, and returns
the totals rounded to 3 and 2 decimal places with the detail list. -/
def EnergyCalculator.calculate_total_consumption_and_cost
    (self : EnergyCalculator) (period_hours : ℚ) : Except PyError CalcResult :=
  if period_hours < 0 then
    .error (.valueError "The period in hours must be a non-negative number.")
  else
    match calcLoop self.tariff_kwh period_hours self.appliances 0 0 [] with
    | .error e => .error e
    | .ok (totalE, totalC, details) =>
      .ok { total_consumption_kwh := pyRound totalE 3,
            total_cost := pyRound totalC 2,
            details := details }

/-- State-passing reading of `calculate_total_consumption_and_cost`: the
method body contains no assignment to any attribute of `self` or of an
appliance (it only reads `self.appliances`, `appliance.is_on`,
`appliance.name`, `self.tariff_kwh` and calls the pure
`calculate_energy_consumption`), so the post-call object state is the
incoming one. -/
def EnergyCalculator.run_calculate (self : EnergyCalculator)
    (period_hours : ℚ) : Except PyError CalcResult × EnergyCalculator :=
  (self.calculate_total_consumption_and_cost period_hours, self)

/-! ## Record store (`database.py`)

`DatabaseManager` wraps a SQLite table `consumption_records`.  The SQLite
engine itself is the external persistent store; its state is embedded as the
list of rows in insertion order plus a readability flag (`readable = false`
models a `sqlite3.Error` raised while reading, which `get_all_records`
catches). -/

/-- One row of the `consumption_records` table. -/
structure ConsumptionRecord where
  id : Nat
  appliance_name : String
  power_consumption_watts : Int
  hours_used : ℚ
  consumption_kwh : ℚ
  cost : ℚ
  tariff : ℚ
  timestamp : String
deriving Repr, DecidableEq

/-- State of a `DatabaseManager` with its underlying store. -/
structure DatabaseManager where
  records : List ConsumptionRecord
  readable : Bool
deriving Repr, DecidableEq

/-- `DatabaseManager.get_all_records`: executes
`SELECT * FROM consumption_records ORDER BY timestamp DESC` and converts the
rows to dictionaries; on `sqlite3.Error` it prints a message and returns the
empty list.  `ORDER BY timestamp DESC` sorts the rows descending by the
`timestamp` text column. -/
def DatabaseManager.get_all_records (self : DatabaseManager) :
    List ConsumptionRecord :=
  if self.readable then
    self.records.mergeSort (fun a b => decide (b.timestamp ≤ a.timestamp))
  else
    []

/-! ## Spec-side vocabulary and helper lemmas -/

/-- `true` iff the embedded call failed with an error in the spec's
`ValidationError` class. -/
def failsValidation {α : Type} : Except PyError α → Bool
  | .error e => e.isValidationError
  | .ok _ => false

/-- The linear energy formula `(powerWatts / 1000) * hours` (§4.1). -/
def energyOf (hours : ℚ) (a : Appliance) : ℚ :=
  a.power_consumption_watts / 1000 * hours

/-- The detail entry `calculate_total_consumption_and_cost` appends for one
appliance. -/
def detailOf (tariff hours : ℚ) (a : Appliance) : DetailEntry :=
  if a.is_on then
    { name := a.name, consumption_kwh := pyRound (energyOf hours a) 3,
      cost := pyRound (energyOf hours a * tariff) 2 }
  else
    { name := a.name, consumption_kwh := 0, cost := 0 }

/-- Sum of the energies of the appliances that are on. -/
def onEnergySum (hours : ℚ) (apps : List Appliance) : ℚ :=
  ((apps.filter fun a => a.is_on).map (energyOf hours)).sum

/-- Sum of the costs (energy × tariff) of the appliances that are on. -/
def onCostSum (tariff hours : ℚ) (apps : List Appliance) : ℚ :=
  ((apps.filter fun a => a.is_on).map fun a => energyOf hours a * tariff).sum

lemma calculate_energy_of_off (a : Appliance) (hours : ℚ)
    (ha : a.is_on = false) : a.calculate_energy_consumption hours = .ok 0 := by
  cases hk : a.kind <;>
    simp [Appliance.calculate_energy_consumption, hk,
      Iron.calculate_energy_consumption, TV.calculate_energy_consumption,
      WashingMachine.calculate_energy_consumption, ha]

lemma calculate_energy_of_on (a : Appliance) (hours : ℚ)
    (ha : a.is_on = true) (hh : 0 ≤ hours) :
    a.calculate_energy_consumption hours = .ok (energyOf hours a) := by
  cases hk : a.kind <;>
    simp [Appliance.calculate_energy_consumption, hk, energyOf,
      Iron.calculate_energy_consumption, TV.calculate_energy_consumption,
      WashingMachine.calculate_energy_consumption, ha, not_lt.mpr hh]

lemma appliance_init_spec {name : String} {power : ℚ} {kind : ApplianceKind}
    {a : Appliance} (h : Appliance.init name power kind = .ok a) :
    a.name = name ∧ a.power_consumption_watts = power ∧ a.is_on = false ∧
      a.kind = kind ∧ name ≠ "" ∧ 0 < power := by
  unfold Appliance.init at h
  split at h
  · exact absurd h (by simp)
  · split at h
    · exact absurd h (by simp)
    · cases h
      refine ⟨rfl, rfl, rfl, rfl, by assumption, not_le.mp (by assumption)⟩

/-- Characterization of the accumulating loop of
`calculate_total_consumption_and_cost` for a non-negative period. -/
lemma calcLoop_eq (tariff hours : ℚ) (hh : 0 ≤ hours) (apps : List Appliance)
    (tE tC : ℚ) (ds : List DetailEntry) :
    calcLoop tariff hours apps tE tC ds =
      .ok (tE + onEnergySum hours apps, tC + onCostSum tariff hours apps,
           ds ++ apps.map (detailOf tariff hours)) := by
  induction apps generalizing tE tC ds with
  | nil => simp [calcLoop, onEnergySum, onCostSum]
  | cons a rest ih =>
    by_cases ha : a.is_on
    · rw [calcLoop, if_pos ha, calculate_energy_of_on a hours ha hh]
      dsimp only
      rw [ih]
      simp [onEnergySum, onCostSum, detailOf, ha]
      exact ⟨by ring, by ring⟩
    · rw [calcLoop, if_neg ha, ih]
      simp at ha
      simp [onEnergySum, onCostSum, detailOf, ha]

/-- Characterization of `calculate_total_consumption_and_cost` for a
non-negative period. -/
lemma calculate_total_eq (c : EnergyCalculator) (hours : ℚ) (hh : 0 ≤ hours) :
    c.calculate_total_consumption_and_cost hours =
      .ok { total_consumption_kwh := pyRound (onEnergySum hours c.appliances) 3,
            total_cost := pyRound (onCostSum c.tariff_kwh hours c.appliances) 2,
            details := c.appliances.map (detailOf c.tariff_kwh hours) } := by
  rw [EnergyCalculator.calculate_total_consumption_and_cost, if_neg (not_lt.mpr hh),
    calcLoop_eq c.tariff_kwh hours hh c.appliances 0 0 []]
  simp

lemma onCostSum_eq_mul (tariff hours : ℚ) (apps : List Appliance) :
    onCostSum tariff hours apps = tariff * onEnergySum hours apps := by
  rw [onCostSum, onEnergySum, ← List.sum_map_mul_left]
  congr 1
  exact List.map_congr_left fun a _ => mul_comm (energyOf hours a) tariff

lemma abs_roundHalfEven_sub (y : ℚ) : |(roundHalfEven y : ℚ) - y| ≤ 1 / 2 := by
  have h1 : (⌊y⌋ : ℚ) ≤ y := Int.floor_le y
  have h2 : y < ⌊y⌋ + 1 := Int.lt_floor_add_one y
  rw [roundHalfEven]
  split
  · rw [abs_le]; constructor <;> [linarith; linarith]
  · split
    · push_cast
      rw [abs_le]; constructor <;> [linarith; linarith]
    · split <;> (push_cast; rw [abs_le]) <;> constructor <;> linarith

lemma abs_pyRound_sub (x : ℚ) (n : ℕ) :
    |pyRound x n - x| ≤ 1 / (2 * 10 ^ n) := by
  have hpos : (0 : ℚ) < 10 ^ n := by positivity
  have key : pyRound x n - x = ((roundHalfEven (x * 10 ^ n) : ℚ) - x * 10 ^ n) / 10 ^ n := by
    rw [pyRound]; field_simp; ring
  rw [key, abs_div, abs_of_pos hpos]
  rw [div_le_div_iff₀ hpos (by positivity)]
  have h := abs_roundHalfEven_sub (x * 10 ^ n)
  calc |(roundHalfEven (x * 10 ^ n) : ℚ) - x * 10 ^ n| * (2 * 10 ^ n)
      ≤ 1 / 2 * (2 * 10 ^ n) := by
        exact mul_le_mul_of_nonneg_right h (by positivity)
    _ = 1 * 10 ^ n := by ring

/-! ## Concrete fixtures for witnesses and counterexamples -/

/-- A 2000 W iron that has been turned on. -/
def ironOn : Appliance :=
  { name := "Iron", power_consumption_watts := 2000, is_on := true,
    kind := .iron false }

/-- A 2000 W iron in its initial (off) state. -/
def ironOff : Appliance :=
  { name := "Iron", power_consumption_watts := 2000, is_on := false,
    kind := .iron false }

/-- A 1000 W TV that has been turned on. -/
def tvOn : Appliance :=
  { name := "TV", power_consumption_watts := 1000, is_on := true,
    kind := .tv 55 }

/-- A 1.6 W TV that has been turned on (a valid construction: the power only
has to be positive). -/
def tvLowPower : Appliance :=
  { name := "TV", power_consumption_watts := 8 / 5, is_on := true,
    kind := .tv 55 }

/-- Calculator over one on and one off appliance with tariff 0.20. -/
def calcTwo : EnergyCalculator :=
  { appliances := [tvOn, ironOff], tariff_kwh := 1 / 5 }

/-- Calculator over the 1.6 W TV with tariff 100 (a valid construction: the
tariff only has to be non-negative). -/
def calcHighTariff : EnergyCalculator :=
  { appliances := [tvLowPower], tariff_kwh := 100 }

/-- The result `calcHighTariff` computes for a 1 hour period. -/
def highTariffResult : CalcResult :=
  { total_consumption_kwh := 1 / 500, total_cost := 4 / 25,
    details := [{ name := "TV", consumption_kwh := 1 / 500, cost := 4 / 25 }] }

/-! ## Claims -/

/-- C1: for every appliance and non-negative hours, `computeEnergy` returns 0
when the appliance is off and exactly `(P / 1000) * h` when it is on, and the
three variants implement literally the same computation. -/
theorem C1_computeEnergy (a : Appliance) (hours : ℚ) (hh : 0 ≤ hours) :
    (a.is_on = false → a.calculate_energy_consumption hours = .ok 0) ∧
    (a.is_on = true → a.calculate_energy_consumption hours =
      .ok (a.power_consumption_watts / 1000 * hours)) ∧
    Iron.calculate_energy_consumption = TV.calculate_energy_consumption ∧
    TV.calculate_energy_consumption = WashingMachine.calculate_energy_consumption := by
  refine ⟨fun ha => calculate_energy_of_off a hours ha,
          fun ha => calculate_energy_of_on a hours ha hh, rfl, rfl⟩

/-- C1 witness: the on 2000 W iron over 2 hours yields 4 kWh. -/
theorem C1_computeEnergy_witness : ironOn.calculate_energy_consumption 2 = .ok 4 := by
  have h := (C1_computeEnergy ironOn 2 (by norm_num)).2.1 rfl
  rw [h]
  norm_num [ironOn]

/-- C2 counterexample: an off appliance given negative hours returns 0.0
instead of failing with a `ValidationError`. -/
theorem C2_counterexample : ironOff.calculate_energy_consumption (-1) = .ok 0 :=
  calculate_energy_of_off ironOff (-1) rfl

/-- C2 amended: `computeEnergy` fails with a `ValidationError` for negative
hours when the appliance is on; when the appliance is off it returns 0
without error (the on/off check precedes the hours validation). -/
theorem C2_amended (a : Appliance) (hours : ℚ) (hneg : hours < 0) :
    (a.is_on = true →
      failsValidation (a.calculate_energy_consumption hours) = true) ∧
    (a.is_on = false → a.calculate_energy_consumption hours = .ok 0) := by
  refine ⟨fun ha => ?_, fun ha => calculate_energy_of_off a hours ha⟩
  cases hk : a.kind <;>
    simp [Appliance.calculate_energy_consumption, hk, failsValidation,
      Iron.calculate_energy_consumption, TV.calculate_energy_consumption,
      WashingMachine.calculate_energy_consumption, ha, hneg,
      PyError.isValidationError]

/-- C2 amended witness: the on iron fails validation at hours = −1. -/
theorem C2_amended_witness :
    failsValidation (ironOn.calculate_energy_consumption (-1)) = true :=
  (C2_amended ironOn (-1) (by norm_num)).1 rfl

/-- C10: for every appliance that is off, all three variant implementations
(and the dispatched method) return 0.0 for every hours argument, negative
included, because the on/off check precedes the hours validation. -/
theorem C10_off_short_circuits (a : Appliance) (hours : ℚ)
    (hoff : a.is_on = false) :
    Iron.calculate_energy_consumption a hours = .ok 0 ∧
    TV.calculate_energy_consumption a hours = .ok 0 ∧
    WashingMachine.calculate_energy_consumption a hours = .ok 0 ∧
    a.calculate_energy_consumption hours = .ok 0 := by
  refine ⟨?_, ?_, ?_, calculate_energy_of_off a hours hoff⟩ <;>
    simp [Iron.calculate_energy_consumption, TV.calculate_energy_consumption,
      WashingMachine.calculate_energy_consumption, hoff]

/-- C10 witness: the off iron returns 0.0 at hours = −5 in every variant. -/
theorem C10_off_short_circuits_witness :
    Iron.calculate_energy_consumption ironOff (-5) = .ok 0 ∧
    TV.calculate_energy_consumption ironOff (-5) = .ok 0 ∧
    WashingMachine.calculate_energy_consumption ironOff (-5) = .ok 0 ∧
    ironOff.calculate_energy_consumption (-5) = .ok 0 :=
  C10_off_short_circuits ironOff (-5) rfl

/-- C5: `calculate_total_consumption_and_cost` leaves the calculator (its
appliance list, every appliance in it, and the tariff) unchanged, and calling
it twice in a row with the same period returns identical results. -/
theorem C5_idempotent_and_pure (c : EnergyCalculator) (period_hours : ℚ) :
    (c.run_calculate period_hours).2 = c ∧
    ((c.run_calculate period_hours).2.run_calculate period_hours).1 =
      (c.run_calculate period_hours).1 ∧
    ((c.run_calculate period_hours).2.run_calculate period_hours).2 = c :=
  ⟨rfl, rfl, rfl⟩

/-- C3: for a non-negative period, `calculate_total_consumption_and_cost`
produces exactly one detail entry per appliance, in collection order
(`details = appliances.map (detailOf tariff hours)`): an on appliance's entry
carries its rounded energy and rounded energy × tariff, an off appliance's
entry is `(name, 0, 0)`; the totals are the sums of energy and of
energy × tariff over the on appliances only (then rounded). -/
theorem C3_computeTotal_shape (c : EnergyCalculator) (period_hours : ℚ)
    (hh : 0 ≤ period_hours) :
    c.calculate_total_consumption_and_cost period_hours =
      .ok { total_consumption_kwh :=
              pyRound (onEnergySum period_hours c.appliances) 3,
            total_cost :=
              pyRound (onCostSum c.tariff_kwh period_hours c.appliances) 2,
            details := c.appliances.map (detailOf c.tariff_kwh period_hours) } :=
  calculate_total_eq c period_hours hh

/-- C3 witness: one on 1000 W TV and one off iron, tariff 0.20, period 1 h
give total energy 1 kWh, total cost 0.20, and the two detail entries in
order. -/
theorem C3_computeTotal_shape_witness :
    calcTwo.calculate_total_consumption_and_cost 1 =
      .ok { total_consumption_kwh := 1, total_cost := 1 / 5,
            details := [{ name := "TV", consumption_kwh := 1, cost := 1 / 5 },
                        { name := "Iron", consumption_kwh := 0, cost := 0 }] } := by
  rw [C3_computeTotal_shape calcTwo 1 (by norm_num)]
  norm_num [calcTwo, tvOn, ironOff, onEnergySum, onCostSum, detailOf,
    energyOf, pyRound, roundHalfEven, List.filter]

/-- C4 counterexample: with a 1.6 W appliance that is on, tariff 100 and
period 1 h, the returned total cost is 0.16 while tariff × returned total
energy is 100 × 0.002 = 0.20; the discrepancy 0.04 exceeds the claimed 1e-2
tolerance. -/
theorem C4_counterexample :
    calcHighTariff.calculate_total_consumption_and_cost 1 = .ok highTariffResult ∧
    ¬ |highTariffResult.total_cost -
        calcHighTariff.tariff_kwh * highTariffResult.total_consumption_kwh| ≤
      1 / 100 := by
  constructor
  · rw [calculate_total_eq calcHighTariff 1 (by norm_num)]
    norm_num [calcHighTariff, tvLowPower, highTariffResult, onEnergySum,
      onCostSum, detailOf, energyOf, pyRound, roundHalfEven, List.filter]
  · norm_num [highTariffResult, calcHighTariff]
    rw [abs_of_pos (by norm_num : (0 : ℚ) < 1 / 25)]
    norm_num

/-- C4 amended: the returned total cost equals tariff × the returned total
energy within a tolerance of 1e-2 + tariff × 5e-4 (the 3-decimal rounding of
the energy is amplified by the tariff, so the flat 1e-2 bound only covers the
cost's own 2-decimal rounding). -/
theorem C4_amended (c : EnergyCalculator) (period_hours : ℚ)
    (hh : 0 ≤ period_hours) (ht : 0 ≤ c.tariff_kwh) (r : CalcResult)
    (hr : c.calculate_total_consumption_and_cost period_hours = .ok r) :
    |r.total_cost - c.tariff_kwh * r.total_consumption_kwh| ≤
      1 / 100 + c.tariff_kwh * (1 / 2000) := by
  rw [calculate_total_eq c period_hours hh] at hr
  have hr2 := (Except.ok.injEq _ _).mp hr
  subst hr2
  dsimp only
  rw [onCostSum_eq_mul]
  have h1 : |pyRound (c.tariff_kwh * onEnergySum period_hours c.appliances) 2 -
      c.tariff_kwh * onEnergySum period_hours c.appliances| ≤ 1 / 200 := by
    have h := abs_pyRound_sub
      (c.tariff_kwh * onEnergySum period_hours c.appliances) 2
    norm_num at h
    exact h
  have h2 : |onEnergySum period_hours c.appliances -
      pyRound (onEnergySum period_hours c.appliances) 3| ≤ 1 / 2000 := by
    have h := abs_pyRound_sub (onEnergySum period_hours c.appliances) 3
    rw [abs_sub_comm] at h
    norm_num at h
    exact h
  have h3 : |c.tariff_kwh * onEnergySum period_hours c.appliances -
      c.tariff_kwh * pyRound (onEnergySum period_hours c.appliances) 3| ≤
      c.tariff_kwh * (1 / 2000) := by
    rw [← mul_sub, abs_mul, abs_of_nonneg ht]
    exact mul_le_mul_of_nonneg_left h2 ht
  calc |pyRound (c.tariff_kwh * onEnergySum period_hours c.appliances) 2 -
      c.tariff_kwh * pyRound (onEnergySum period_hours c.appliances) 3|
      ≤ |pyRound (c.tariff_kwh * onEnergySum period_hours c.appliances) 2 -
          c.tariff_kwh * onEnergySum period_hours c.appliances| +
        |c.tariff_kwh * onEnergySum period_hours c.appliances -
          c.tariff_kwh * pyRound (onEnergySum period_hours c.appliances) 3| :=
        abs_sub_le _ _ _
    _ ≤ 1 / 100 + c.tariff_kwh * (1 / 2000) := by linarith

/-- C4 amended witness: for the tariff-100 calculator over 1 h the
discrepancy 0.04 is within 1e-2 + 100 × 5e-4 = 0.06. -/
theorem C4_amended_witness :
    calcHighTariff.calculate_total_consumption_and_cost 1 = .ok highTariffResult ∧
    |highTariffResult.total_cost -
      calcHighTariff.tariff_kwh * highTariffResult.total_consumption_kwh| ≤
      1 / 100 + calcHighTariff.tariff_kwh * (1 / 2000) := by
  have heq : calcHighTariff.calculate_total_consumption_and_cost 1 =
      .ok highTariffResult := by
    rw [calculate_total_eq calcHighTariff 1 (by norm_num)]
    norm_num [calcHighTariff, tvLowPower, highTariffResult, onEnergySum,
      onCostSum, detailOf, energyOf, pyRound, roundHalfEven, List.filter]
  exact ⟨heq, C4_amended calcHighTariff 1 (by norm_num)
    (by norm_num [calcHighTariff]) highTariffResult heq⟩

/-- `true` iff an optional raised exception is in the spec's
`ValidationError` class. -/
def optFailsValidation : Option PyError → Bool
  | some e => e.isValidationError
  | none => false

/-- C6: calculator construction fails with a `ValidationError` when the
collection contains a non-`Appliance` element or when the tariff is
negative; with an all-`Appliance` collection and a non-negative tariff it
succeeds, storing the appliances and the tariff unchanged. -/
theorem C6_calculator_init (vals : List PyValue) (tariff : ℚ) :
    ((∃ v ∈ vals, v.isAppliance = false) →
      failsValidation (EnergyCalculator.init vals tariff) = true) ∧
    (tariff < 0 →
      failsValidation (EnergyCalculator.init vals tariff) = true) ∧
    ((∀ v ∈ vals, v.isAppliance = true) → 0 ≤ tariff →
      EnergyCalculator.init vals tariff =
        .ok { appliances := vals.filterMap PyValue.toAppliance,
              tariff_kwh := tariff }) := by
  unfold EnergyCalculator.init
  refine ⟨fun ⟨v, hv, hva⟩ => ?_, fun ht => ?_, fun hall hnn => ?_⟩
  · rw [if_pos]
    · rfl
    · simp only [List.all_eq_true, not_forall]
      exact ⟨v, hv, by simp [hva]⟩
  · by_cases hall : vals.all PyValue.isAppliance
    · rw [if_neg (by simp [hall]), if_pos ht]
      rfl
    · rw [if_pos hall]
      rfl
  · rw [if_neg (by simp [List.all_eq_true]; exact hall), if_neg (not_lt.mpr hnn)]

/-- C6 witness: a list containing a non-appliance fails, a negative tariff
fails, and a valid call stores the appliance list and the tariff 0.5. -/
theorem C6_calculator_init_witness :
    failsValidation (EnergyCalculator.init [PyValue.other "the int 5"] 1) = true ∧
    failsValidation (EnergyCalculator.init [PyValue.appliance ironOff] (-1)) = true ∧
    EnergyCalculator.init [PyValue.appliance ironOff] (1 / 2) =
      .ok { appliances := [ironOff], tariff_kwh := 1 / 2 } := by
  refine ⟨(C6_calculator_init [PyValue.other "the int 5"] 1).1
            ⟨PyValue.other "the int 5", by simp, rfl⟩,
          (C6_calculator_init [PyValue.appliance ironOff] (-1)).2.1 (by norm_num),
          ?_⟩
  have h := (C6_calculator_init [PyValue.appliance ironOff] (1 / 2)).2.2
    (by simp [PyValue.isAppliance]) (by norm_num)
  simpa [PyValue.toAppliance] using h

/-- C7: setting the tariff property to a negative value fails with a
`ValidationError` and leaves the calculator unchanged; setting a
non-negative value updates the stored tariff to exactly that value (and
nothing else). -/
theorem C7_tariff_setter (c : EnergyCalculator) (value : ℚ) :
    (value < 0 → (c.set_tariff_kwh value).1 = c ∧
      optFailsValidation (c.set_tariff_kwh value).2 = true) ∧
    (0 ≤ value → (c.set_tariff_kwh value).1 =
      { appliances := c.appliances, tariff_kwh := value } ∧
      (c.set_tariff_kwh value).2 = none) := by
  unfold EnergyCalculator.set_tariff_kwh
  constructor
  · intro hv
    rw [if_pos hv]
    exact ⟨rfl, rfl⟩
  · intro hv
    rw [if_neg (not_lt.mpr hv)]
    exact ⟨rfl, rfl⟩

/-- C7 witness: on `calcTwo`, setting −1 fails and changes nothing, setting 3
stores 3. -/
theorem C7_tariff_setter_witness :
    (calcTwo.set_tariff_kwh (-1)).1 = calcTwo ∧
    optFailsValidation (calcTwo.set_tariff_kwh (-1)).2 = true ∧
    (calcTwo.set_tariff_kwh 3).1 =
      { appliances := calcTwo.appliances, tariff_kwh := 3 } ∧
    (calcTwo.set_tariff_kwh 3).2 = none := by
  obtain ⟨h1, h2⟩ := (C7_tariff_setter calcTwo (-1)).1 (by norm_num)
  obtain ⟨h3, h4⟩ := (C7_tariff_setter calcTwo 3).2 (by norm_num)
  exact ⟨h1, h2, h3, h4⟩

/-- Appliance states reachable through the public lifecycle: a successful
constructor call followed by any number of `turn_on` / `turn_off` calls. -/
inductive Reachable : Appliance → Prop
  | base {n : String} {p : ℚ} {k : ApplianceKind} {a : Appliance} :
      Appliance.init n p k = .ok a → Reachable a
  | ironInit {n : String} {p : ℚ} {sb : Bool} {a : Appliance} :
      Iron.init n p sb = .ok a → Reachable a
  | tvInit {n : String} {p s : ℚ} {a : Appliance} :
      TV.init n p s = .ok a → Reachable a
  | wmInit {n : String} {p cap : ℚ} {a : Appliance} :
      WashingMachine.init n p cap = .ok a → Reachable a
  | stepOn {a : Appliance} : Reachable a → Reachable a.turn_on
  | stepOff {a : Appliance} : Reachable a → Reachable a.turn_off

lemma tv_init_to_base {n : String} {p s : ℚ} {a : Appliance}
    (h : TV.init n p s = .ok a) : Appliance.init n p (.tv s) = .ok a := by
  unfold TV.init at h
  cases hb : Appliance.init n p (.tv s) with
  | error e => rw [hb] at h; exact absurd h (by simp [Bind.bind, Except.bind])
  | ok b =>
    rw [hb] at h
    simp only [Bind.bind, Except.bind] at h
    split at h
    · exact absurd h (by simp)
    · exact h

lemma wm_init_to_base {n : String} {p cap : ℚ} {a : Appliance}
    (h : WashingMachine.init n p cap = .ok a) :
    Appliance.init n p (.washingMachine cap) = .ok a := by
  unfold WashingMachine.init at h
  cases hb : Appliance.init n p (.washingMachine cap) with
  | error e => rw [hb] at h; exact absurd h (by simp [Bind.bind, Except.bind])
  | ok b =>
    rw [hb] at h
    simp only [Bind.bind, Except.bind] at h
    split at h
    · exact absurd h (by simp)
    · exact h

/-- C8: constructing an appliance with an empty name or a non-positive power
fails with a `ValidationError`; every appliance reachable through the public
lifecycle satisfies the invariant (non-empty name, strictly positive power);
and `turn_on` / `turn_off` leave name and power unchanged (`computeEnergy`
is read-only on the appliance state by its state-passing reading, see
`EnergyCalculator.run_calculate`). -/
theorem C8_invariant :
    (∀ (n : String) (p : ℚ) (k : ApplianceKind), n = "" ∨ p ≤ 0 →
      failsValidation (Appliance.init n p k) = true) ∧
    (∀ a : Appliance, Reachable a →
      a.name ≠ "" ∧ 0 < a.power_consumption_watts) ∧
    (∀ a : Appliance,
      a.turn_on.name = a.name ∧
      a.turn_on.power_consumption_watts = a.power_consumption_watts ∧
      a.turn_off.name = a.name ∧
      a.turn_off.power_consumption_watts = a.power_consumption_watts) := by
  refine ⟨?_, ?_, fun a => ⟨rfl, rfl, rfl, rfl⟩⟩
  · intro n p k h
    unfold Appliance.init
    split
    · rfl
    · rcases h with h | h
      · exact absurd h (by assumption)
      · rw [if_pos h]
        rfl
  · intro a hr
    induction hr with
    | base h =>
      obtain ⟨h1, h2, _, _, h5, h6⟩ := appliance_init_spec h
      exact ⟨h1 ▸ h5, h2 ▸ h6⟩
    | ironInit h =>
      obtain ⟨h1, h2, _, _, h5, h6⟩ := appliance_init_spec h
      exact ⟨h1 ▸ h5, h2 ▸ h6⟩
    | tvInit h =>
      obtain ⟨h1, h2, _, _, h5, h6⟩ := appliance_init_spec (tv_init_to_base h)
      exact ⟨h1 ▸ h5, h2 ▸ h6⟩
    | wmInit h =>
      obtain ⟨h1, h2, _, _, h5, h6⟩ := appliance_init_spec (wm_init_to_base h)
      exact ⟨h1 ▸ h5, h2 ▸ h6⟩
    | stepOn _ ih => exact ih
    | stepOff _ ih => exact ih

/-- C8 witness: empty name and zero power fail; the iron turned on after a
successful construction satisfies the invariant, and `turn_on` preserved its
name and power. -/
theorem C8_invariant_witness :
    failsValidation (Appliance.init "" 2000 (.iron false)) = true ∧
    failsValidation (Appliance.init "Iron" 0 (.iron false)) = true ∧
    (ironOff.turn_on.name ≠ "" ∧ 0 < ironOff.turn_on.power_consumption_watts) ∧
    ironOff.turn_on.name = ironOff.name ∧
    ironOff.turn_on.power_consumption_watts = ironOff.power_consumption_watts := by
  have hinit : Appliance.init "Iron" 2000 (.iron false) = .ok ironOff := by
    unfold Appliance.init
    rw [if_neg (by decide : ¬("Iron" = "")), if_neg (by norm_num : ¬((2000 : ℚ) ≤ 0))]
    rfl
  exact ⟨C8_invariant.1 "" 2000 (.iron false) (Or.inl rfl),
         C8_invariant.1 "Iron" 0 (.iron false) (Or.inr le_rfl),
         C8_invariant.2.1 ironOff.turn_on (Reachable.stepOn (Reachable.base hinit)),
         (C8_invariant.2.2 ironOff).1, (C8_invariant.2.2 ironOff).2.1⟩

/-- C9: `get_all_records` returns the empty list (not an error) on an empty
store and on an unreadable store, and on a readable store returns a
permutation of all persisted records that is sorted by timestamp descending
(newest first). -/
theorem C9_get_all_records (db : DatabaseManager) :
    (db.records = [] → db.get_all_records = []) ∧
    (db.readable = false → db.get_all_records = []) ∧
    (db.readable = true →
      db.get_all_records.Perm db.records ∧
      db.get_all_records.Pairwise (fun a b => b.timestamp ≤ a.timestamp)) := by
  unfold DatabaseManager.get_all_records
  refine ⟨fun h => ?_, fun h => ?_, fun h => ?_⟩
  · rw [h]
    split <;> simp
  · simp [h]
  · simp only [h, if_true]
    constructor
    · exact List.mergeSort_perm db.records _
    · have htrans : ∀ a b c : ConsumptionRecord,
          decide (b.timestamp ≤ a.timestamp) = true →
          decide (c.timestamp ≤ b.timestamp) = true →
          decide (c.timestamp ≤ a.timestamp) = true := by
        intro a b c h1 h2
        simp only [decide_eq_true_eq] at h1 h2 ⊢
        exact le_trans h2 h1
      have htotal : ∀ a b : ConsumptionRecord,
          (decide (b.timestamp ≤ a.timestamp) ||
           decide (a.timestamp ≤ b.timestamp)) = true := by
        intro a b
        simp only [Bool.or_eq_true, decide_eq_true_eq]
        exact le_total _ _
      have hs := @List.sorted_mergeSort ConsumptionRecord
        (fun a b => decide (b.timestamp ≤ a.timestamp)) htrans htotal db.records
      exact hs.imp fun hab => by simpa using hab

/-- A persisted record with the older timestamp. -/
def recOld : ConsumptionRecord :=
  { id := 1, appliance_name := "Iron", power_consumption_watts := 2000,
    hours_used := 2, consumption_kwh := 4, cost := 3 / 5, tariff := 3 / 20,
    timestamp := "2024-01-01T10:00:00" }

/-- A persisted record with the newer timestamp. -/
def recNew : ConsumptionRecord :=
  { id := 2, appliance_name := "TV", power_consumption_watts := 150,
    hours_used := 2, consumption_kwh := 3 / 10, cost := 9 / 200,
    tariff := 3 / 20, timestamp := "2024-06-01T12:30:00" }

/-- A freshly initialized, empty, readable store. -/
def emptyDB : DatabaseManager := { records := [], readable := true }

/-- A store whose read path raises `sqlite3.Error`. -/
def badDB : DatabaseManager := { records := [recOld], readable := false }

/-- A readable store holding two records in insertion order. -/
def goodDB : DatabaseManager := { records := [recOld, recNew], readable := true }

/-- C9 witness: the empty store and the unreadable store list to `[]`; the
two-record store lists to a permutation of its records sorted newest
first. -/
theorem C9_get_all_records_witness :
    emptyDB.get_all_records = [] ∧
    badDB.get_all_records = [] ∧
    (goodDB.get_all_records.Perm goodDB.records ∧
     goodDB.get_all_records.Pairwise (fun a b => b.timestamp ≤ a.timestamp)) :=
  ⟨(C9_get_all_records emptyDB).1 rfl,
   (C9_get_all_records badDB).2.1 rfl,
   (C9_get_all_records goodDB).2.2 rfl⟩

end ApplianceCalc
